import Mathlib

/-!
Verification development for the ARM64 Hypervisor.framework (hvf) vCPU backend
of this QEMU tree: shallow embedding of `target/arm/hvf/hvf.c` and of the
breakpoint helpers, together with theorems settling the spec's claims about
the register-transfer layer, the exit dispatcher, the idle/wait scheduler,
the PSCI handler and the breakpoint patching.

Machine integers are modelled as `Nat` with explicit `% 2^64` where 64-bit
overflow matters.  External collaborators (guest memory, the coprocessor
register emulation, clocks, the power-control API) are modelled as explicit
state or read-only oracles.
-/

/-- `2 ^ 64`, the modulus of the 64-bit machine words used throughout. -/
def U64MOD : Nat := 2 ^ 64

/-- Modelled from the spec: conversion of a C signed 32/64-bit result value to
the `uint64_t` stored into a guest GPR (two's-complement reduction mod 2^64). -/
def u64ofInt (i : Int) : Nat := (i % (U64MOD : Int)).toNat

/-- Reinterpretation of a 64-bit unsigned value as a C `int64_t`
(two's complement), as in `int64_t ticks_to_sleep = cval - mach_absolute_time()`. -/
def toInt64 (n : Nat) : Int :=
  if n % U64MOD < 2 ^ 63 then (n % U64MOD : Int) else (n % U64MOD : Int) - (U64MOD : Int)

/-- 64-bit unsigned subtraction `a - b` (wraparound mod 2^64). -/
def usub64 (a b : Nat) : Nat := (a % U64MOD + U64MOD - b % U64MOD) % U64MOD

/-- Little-endian read of `n` bytes of guest physical memory starting at `a`,
as performed by `address_space_read` into a zero-initialised `uint64_t`. -/
def readBytes (mem : Nat → Nat) (a : Nat) : Nat → Nat
  | 0 => 0
  | n + 1 => mem a % 256 + 256 * readBytes mem (a + 1) n

/-- Little-endian write of the low `n` bytes of `v` to guest physical memory
starting at `a`, as performed by `address_space_write` from a `uint64_t` buffer. -/
def writeBytes (mem : Nat → Nat) (a v : Nat) : Nat → (Nat → Nat)
  | 0 => mem
  | n + 1 => writeBytes (fun x => if x = a then v % 256 else mem x) (a + 1) (v / 256) n

/-- The `SYSREG(op0, op1, crn, crm, op2)` encoding macro of hvf.c. -/
def SYSREG (op0 op1 crn crm op2 : Nat) : Nat :=
  (op0 <<< 20) ||| (op2 <<< 17) ||| (op1 <<< 14) ||| (crn <<< 10) ||| (crm <<< 1)

def SYSREG_MASK : Nat := SYSREG 0x3 0x7 0xf 0xf 0x7

def SYSREG_CNTPCT_EL0 : Nat := SYSREG 3 3 14 0 1
def SYSREG_CNTP_CTL_EL0 : Nat := SYSREG 3 3 14 2 1
def SYSREG_PMCCNTR_EL0 : Nat := SYSREG 3 3 9 13 0
def SYSREG_OSLAR_EL1 : Nat := SYSREG 2 0 1 0 4

def SYSREG_ICC_AP0R0_EL1 : Nat := SYSREG 3 0 12 8 4
def SYSREG_ICC_AP0R1_EL1 : Nat := SYSREG 3 0 12 8 5
def SYSREG_ICC_AP0R2_EL1 : Nat := SYSREG 3 0 12 8 6
def SYSREG_ICC_AP0R3_EL1 : Nat := SYSREG 3 0 12 8 7
def SYSREG_ICC_AP1R0_EL1 : Nat := SYSREG 3 0 12 9 0
def SYSREG_ICC_AP1R1_EL1 : Nat := SYSREG 3 0 12 9 1
def SYSREG_ICC_AP1R2_EL1 : Nat := SYSREG 3 0 12 9 2
def SYSREG_ICC_AP1R3_EL1 : Nat := SYSREG 3 0 12 9 3
def SYSREG_ICC_ASGI1R_EL1 : Nat := SYSREG 3 0 12 11 6
def SYSREG_ICC_BPR0_EL1 : Nat := SYSREG 3 0 12 8 3
def SYSREG_ICC_BPR1_EL1 : Nat := SYSREG 3 0 12 12 3
def SYSREG_ICC_CTLR_EL1 : Nat := SYSREG 3 0 12 12 4
def SYSREG_ICC_DIR_EL1 : Nat := SYSREG 3 0 12 11 1
def SYSREG_ICC_EOIR0_EL1 : Nat := SYSREG 3 0 12 8 1
def SYSREG_ICC_EOIR1_EL1 : Nat := SYSREG 3 0 12 12 1
def SYSREG_ICC_HPPIR0_EL1 : Nat := SYSREG 3 0 12 8 2
def SYSREG_ICC_HPPIR1_EL1 : Nat := SYSREG 3 0 12 12 2
def SYSREG_ICC_IAR0_EL1 : Nat := SYSREG 3 0 12 8 0
def SYSREG_ICC_IAR1_EL1 : Nat := SYSREG 3 0 12 12 0
def SYSREG_ICC_IGRPEN0_EL1 : Nat := SYSREG 3 0 12 12 6
def SYSREG_ICC_IGRPEN1_EL1 : Nat := SYSREG 3 0 12 12 7
def SYSREG_ICC_PMR_EL1 : Nat := SYSREG 3 0 4 6 0
def SYSREG_ICC_RPR_EL1 : Nat := SYSREG 3 0 12 11 3
def SYSREG_ICC_SGI0R_EL1 : Nat := SYSREG 3 0 12 11 7
def SYSREG_ICC_SGI1R_EL1 : Nat := SYSREG 3 0 12 11 5
def SYSREG_ICC_SRE_EL1 : Nat := SYSREG 3 0 12 12 5

/-- Modelled from the spec: the exception-class values of the ARM syndrome
register used by the dispatcher (`syn_get_ec`), defined in the repository's
`target/arm/internals.h` which is not under src/. -/
def EC_WFX_TRAP : Nat := 0x01
def EC_AA64_HVC : Nat := 0x16
def EC_AA64_SMC : Nat := 0x17
def EC_SYSTEMREGISTERTRAP : Nat := 0x18
def EC_DATAABORT : Nat := 0x24
def EC_SOFTWARESTEP : Nat := 0x32
def EC_AA64_BKPT : Nat := 0x3c

/-- `syn_get_ec`: top 6 bits (bits 26-31) of the syndrome. -/
def syn_get_ec (syndrome : Nat) : Nat := (syndrome >>> 26) &&& 0x3f

/-- Modelled from the spec: `syn_uncategorized()` from the repository's
`target/arm/internals.h` (not under src/): the uncategorized (unknown-reason)
syndrome, EC 0 with the IL bit (bit 25) set. -/
def syn_uncategorized : Nat := 1 <<< 25

/-- Modelled from the spec: QEMU's debug-stop status code `EXCP_DEBUG`
(`include/exec/cpu-all.h`, not under src/). -/
def EXCP_DEBUG : Nat := 0x10002

/-- Modelled from the spec: the ARM undefined-instruction exception number
`EXCP_UDEF` (`target/arm/cpu.h`, not under src/). -/
def EXCP_UDEF : Nat := 1

/-- Modelled from the spec: the D, A, I and F interrupt-mask bits of PSTATE
(`PSTATE_DAIF`, bits 6-9, from `target/arm/cpu.h`, not under src/). -/
def PSTATE_DAIF : Nat := 0x3c0

/-- The auto-synced system registers of `hvf_sreg_match`, collapsed onto the
emulated CPU's semantic fields.  Modelled from the spec: the source keeps a
`cpreg_values` cache reconciled with the CPU state by
`write_list_to_cpustate` / `write_cpustate_to_list` (outside src/), which the
spec describes as exact mutually inverse copies; the cache is therefore
collapsed into one store.  Named fields are the registers the code under src/
touches semantically; `other` holds the remaining table entries by position. -/
structure SysRegs where
  esr_el1 : Nat
  elr_el1 : Nat
  spsr_el1 : Nat
  vbar_el1 : Nat
  sp_el0 : Nat
  sp_el1 : Nat
  cntv_ctl : Nat
  cntv_cval : Nat
  other : Nat → Nat

/-- The hardware vCPU register file as visible through `hv_vcpu_get_reg` /
`hv_vcpu_set_reg` / the SIMD and system register accessors: the registers of
`hvf_reg_match` (X0-X30 and PC), `hvf_fpreg_match` (Q0-Q31), FPCR, FPSR,
CPSR and the `hvf_sreg_match` system registers. -/
structure HW where
  xregs : Fin 31 → Nat
  pc : Nat
  qregs : Fin 32 → Nat
  fpcr : Nat
  fpsr : Nat
  cpsr : Nat
  sregs : SysRegs

/-- The emulated CPU state (`CPUARMState`) as far as the code under src/
touches it: X0-X30 plus SP (`xregs[31]`), PC, the SIMD/FP registers, FPCR,
FPSR, PSTATE and the auto-synced system registers.  `vfp_set_fpcr`/`vfp_get_fpcr`
and `pstate_write`/`pstate_read` (outside src/) are modelled from the spec as a
plain store/load pair. -/
structure Env where
  xregs : Fin 32 → Nat
  pc : Nat
  zregs : Fin 32 → Nat
  fpcr : Nat
  fpsr : Nat
  pstate : Nat
  sregs : SysRegs

/-- `hvf_get_registers`: pull every hardware register into the emulated state
(X0-X30 and PC via `hvf_reg_match`, Q0-Q31 via `hvf_fpreg_match`, FPCR, FPSR,
CPSR/PSTATE, and the `hvf_sreg_match` system registers reconciled into the
CPU state). -/
def hvf_get_registers (env : Env) (hw : HW) : Env :=
  { xregs := fun i => if h : i.val < 31 then hw.xregs ⟨i.val, h⟩ else env.xregs i
    pc := hw.pc
    zregs := hw.qregs
    fpcr := hw.fpcr
    fpsr := hw.fpsr
    pstate := hw.cpsr
    sregs := hw.sregs }

/-- `hvf_put_registers`: push the emulated state into every hardware register
(the exact inverse direction of `hvf_get_registers` over the same tables). -/
def hvf_put_registers (env : Env) (hw : HW) : HW :=
  { xregs := fun i => env.xregs i.castSucc
    pc := env.pc
    qregs := env.zregs
    fpcr := env.fpcr
    fpsr := env.fpsr
    cpsr := env.pstate
    sregs := env.sregs }

/-- The per-vCPU state the code under src/ manipulates: the hardware register
file, the emulated state, the `vcpu_dirty` flag, and the CPU's pending
IRQ/FIQ request lines (`cpu->interrupt_request`). -/
structure VState where
  hw : HW
  env : Env
  dirty : Bool
  irqPending : Bool
  fiqPending : Bool

/-- `flush_cpu_state`: push the emulated state to hardware iff the dirty flag
is set, then clear it. -/
def flush_cpu_state (s : VState) : VState :=
  if s.dirty then { s with hw := hvf_put_registers s.env s.hw, dirty := false } else s

/-- Modelled from the spec: `cpu_synchronize_state` (hvf common code, outside
src/) pulls the hardware registers into the emulated state and marks it dirty,
doing nothing when already dirty. -/
def cpu_synchronize_state (s : VState) : VState :=
  if s.dirty then s
  else { s with env := hvf_get_registers s.env s.hw, dirty := true }

/-- `hvf_set_reg`: lazily flush, then write general-purpose register `rt` on
the hardware vCPU when `rt < 31`; index 31 performs no hardware register
write. -/
def hvf_set_reg (s : VState) (rt v : Nat) : VState :=
  let s' := flush_cpu_state s
  if h : rt < 31 then
    { s' with hw := { s'.hw with
        xregs := Function.update s'.hw.xregs ⟨rt, h⟩ (v % U64MOD) } }
  else s'

/-- `hvf_get_reg`: lazily flush, then read general-purpose register `rt` from
the hardware vCPU when `rt < 31`; index 31 returns the zero-initialised
value 0. -/
def hvf_get_reg (s : VState) (rt : Nat) : VState × Nat :=
  let s' := flush_cpu_state s
  (s', if h : rt < 31 then s'.hw.xregs ⟨rt, h⟩ else 0)

/-- External collaborators of the dispatcher, modelled as explicit state and
read-only oracles: the coprocessor-register emulation backing
`hvf_sysreg_read_cp`/`hvf_sysreg_write_cp` (keyed by the trapped `SYSREG`
encoding), the virtual clock and counter period, the host monotonic clock and
guest counter frequency, the virtual-timer interrupt line and hardware mask,
and the power-control API used by the PSCI handler. -/
structure World where
  cp : Nat → Nat
  clockNs : Nat
  periodNs : Nat
  machTime : Nat
  freq : Nat
  vtimerIrqLine : Bool
  vtimerHwMasked : Bool
  cpuPowerById : Nat → Option Nat
  setCpuOnRet : Nat → Nat → Nat → Int

/-- `hvf_sysreg_read_cp`: forward a trapped read to the architecture's
coprocessor-register emulation (a 64-bit value). -/
def hvf_sysreg_read_cp (w : World) (reg : Nat) : Nat := w.cp reg % U64MOD

/-- `hvf_sysreg_write_cp`: forward a trapped write to the architecture's
coprocessor-register emulation. -/
def hvf_sysreg_write_cp (w : World) (reg v : Nat) : World :=
  { w with cp := Function.update w.cp reg v }

/-- The ICC registers whose trapped reads `hvf_sysreg_read` forwards verbatim
to the coprocessor-register emulation (every ICC case of the read switch
except `ICC_CTLR_EL1`). -/
def iccReadForwardKeys : List Nat :=
  [SYSREG_ICC_AP0R0_EL1, SYSREG_ICC_AP0R1_EL1, SYSREG_ICC_AP0R2_EL1,
   SYSREG_ICC_AP0R3_EL1, SYSREG_ICC_AP1R0_EL1, SYSREG_ICC_AP1R1_EL1,
   SYSREG_ICC_AP1R2_EL1, SYSREG_ICC_AP1R3_EL1, SYSREG_ICC_ASGI1R_EL1,
   SYSREG_ICC_BPR0_EL1, SYSREG_ICC_BPR1_EL1, SYSREG_ICC_DIR_EL1,
   SYSREG_ICC_EOIR0_EL1, SYSREG_ICC_EOIR1_EL1, SYSREG_ICC_HPPIR0_EL1,
   SYSREG_ICC_HPPIR1_EL1, SYSREG_ICC_IAR0_EL1, SYSREG_ICC_IAR1_EL1,
   SYSREG_ICC_IGRPEN0_EL1, SYSREG_ICC_IGRPEN1_EL1, SYSREG_ICC_PMR_EL1,
   SYSREG_ICC_SGI0R_EL1, SYSREG_ICC_SGI1R_EL1, SYSREG_ICC_SRE_EL1]

/-- The ICC registers whose trapped writes `hvf_sysreg_write` forwards
verbatim to the coprocessor-register emulation (every ICC case of the write
switch except the `EOIR0`/`EOIR1` case, which has extra side effects). -/
def iccWriteForwardKeys : List Nat :=
  [SYSREG_ICC_AP0R0_EL1, SYSREG_ICC_AP0R1_EL1, SYSREG_ICC_AP0R2_EL1,
   SYSREG_ICC_AP0R3_EL1, SYSREG_ICC_AP1R0_EL1, SYSREG_ICC_AP1R1_EL1,
   SYSREG_ICC_AP1R2_EL1, SYSREG_ICC_AP1R3_EL1, SYSREG_ICC_ASGI1R_EL1,
   SYSREG_ICC_BPR0_EL1, SYSREG_ICC_BPR1_EL1, SYSREG_ICC_CTLR_EL1,
   SYSREG_ICC_DIR_EL1, SYSREG_ICC_HPPIR0_EL1, SYSREG_ICC_HPPIR1_EL1,
   SYSREG_ICC_IAR0_EL1, SYSREG_ICC_IAR1_EL1, SYSREG_ICC_IGRPEN0_EL1,
   SYSREG_ICC_IGRPEN1_EL1, SYSREG_ICC_PMR_EL1, SYSREG_ICC_SGI0R_EL1,
   SYSREG_ICC_SGI1R_EL1, SYSREG_ICC_SRE_EL1]

/-- Modelled from the spec: `ICC_CTLR_EL1_PRIBITS_MASK` / `_SHIFT` from
`hw/intc/gicv3_internal.h` (not under src/): the priority-bits field occupies
bits 8-10, so `~MASK` over 64 bits is `0xFFFFFFFFFFFFF8FF`. -/
def ICC_CTLR_EL1_PRIBITS_SHIFT : Nat := 8

def ICC_CTLR_EL1_PRIBITS_NOTMASK : Nat := 0xFFFFFFFFFFFFF8FF

/-- `hvf_sysreg_read`: trapped system-register read dispatch.  Returns the
(possibly synchronized) vCPU state and the value handed to the destination
GPR. -/
def hvf_sysreg_read (s : VState) (w : World) (reg : Nat) : VState × Nat :=
  if reg = SYSREG_CNTPCT_EL0 then
    (s, w.clockNs / w.periodNs)
  else if reg = SYSREG_PMCCNTR_EL0 then
    (s, w.clockNs)
  else if reg ∈ iccReadForwardKeys then
    (s, hvf_sysreg_read_cp w reg)
  else if reg = SYSREG_ICC_CTLR_EL1 then
    (s, (hvf_sysreg_read_cp w reg &&& ICC_CTLR_EL1_PRIBITS_NOTMASK)
          ||| (4 <<< ICC_CTLR_EL1_PRIBITS_SHIFT))
  else
    (cpu_synchronize_state s, 0)

/-- `hvf_sysreg_write`: trapped system-register write dispatch. -/
def hvf_sysreg_write (s : VState) (w : World) (reg v : Nat) : VState × World :=
  if reg = SYSREG_CNTPCT_EL0 ∨ reg = SYSREG_CNTP_CTL_EL0 ∨ reg = SYSREG_OSLAR_EL1 then
    (s, w)
  else if reg ∈ iccWriteForwardKeys then
    (s, hvf_sysreg_write_cp w reg v)
  else if reg = SYSREG_ICC_EOIR0_EL1 ∨ reg = SYSREG_ICC_EOIR1_EL1 then
    let w' := hvf_sysreg_write_cp w reg v
    (s, { w' with vtimerIrqLine := false, vtimerHwMasked := false })
  else
    (cpu_synchronize_state s, w)

/-- Modelled from the spec: the PSCI 0.1 function identifiers
(`QEMU_PSCI_0_1_FN_*` from the repository's headers, not under src/). -/
def QEMU_PSCI_0_1_FN_CPU_SUSPEND : Nat := 0x95c1ba5e
def QEMU_PSCI_0_1_FN_CPU_OFF : Nat := 0x95c1ba5f
def QEMU_PSCI_0_1_FN_CPU_ON : Nat := 0x95c1ba60
def QEMU_PSCI_0_1_FN_MIGRATE : Nat := 0x95c1ba61

/-- Modelled from the spec: the PSCI 0.2 function identifiers
(`QEMU_PSCI_0_2_FN_*` from the repository's headers, not under src/). -/
def QEMU_PSCI_0_2_FN_PSCI_VERSION : Nat := 0x84000000
def QEMU_PSCI_0_2_FN_CPU_SUSPEND : Nat := 0x84000001
def QEMU_PSCI_0_2_FN_CPU_OFF : Nat := 0x84000002
def QEMU_PSCI_0_2_FN_CPU_ON : Nat := 0x84000003
def QEMU_PSCI_0_2_FN_AFFINITY_INFO : Nat := 0x84000004
def QEMU_PSCI_0_2_FN_MIGRATE : Nat := 0x84000005
def QEMU_PSCI_0_2_FN_MIGRATE_INFO_TYPE : Nat := 0x84000006
def QEMU_PSCI_0_2_FN64_CPU_SUSPEND : Nat := 0xC4000001
def QEMU_PSCI_0_2_FN64_CPU_ON : Nat := 0xC4000003
def QEMU_PSCI_0_2_FN64_AFFINITY_INFO : Nat := 0xC4000004
def QEMU_PSCI_0_2_FN_SYSTEM_OFF : Nat := 0x84000008
def QEMU_PSCI_0_2_FN_SYSTEM_RESET : Nat := 0x84000009

/-- Modelled from the spec: the PSCI return codes used by the handler
(version 0.2; migration not required; invalid parameters; not supported). -/
def QEMU_PSCI_0_2_RET_VERSION_0_2 : Int := 2
def QEMU_PSCI_0_2_RET_TOS_MIGRATION_NOT_REQUIRED : Int := 2
def QEMU_PSCI_RET_INVALID_PARAMS : Int := -2
def QEMU_PSCI_RET_NOT_SUPPORTED : Int := -1

/-- Modelled from the spec: the vendor boot-probe SMC value
`QEMU_SMCCC_TC_WINDOWS10_BOOT` (repository header, not under src/); its exact
value is immaterial to the claims. -/
def QEMU_SMCCC_TC_WINDOWS10_BOOT : Nat := 0xc3000001

/-- Store a 64-bit result into the emulated `xregs[0]`. -/
def setX0 (env : Env) (v : Nat) : Env :=
  { env with xregs := Function.update env.xregs 0 v }

/-- `hvf_handle_psci_call`: dispatch on the function identifier in `xregs[0]`.
Returns the updated emulated state and the C return value (0 = handled as a
firmware call, 1 = not a firmware call).  External effects (system
reset/shutdown requests, powering other logical CPUs on or off, the WFI sleep
of the suspend path) act on collaborators outside the calling CPU's register
state and are not part of the returned state. -/
def hvf_handle_psci_call (w : World) (env : Env) : Env × Nat :=
  let p0 := env.xregs 0
  let p1 := env.xregs 1
  let p2 := env.xregs 2
  let p3 := env.xregs 3
  if p0 = QEMU_PSCI_0_2_FN_PSCI_VERSION then
    (setX0 env (u64ofInt QEMU_PSCI_0_2_RET_VERSION_0_2), 0)
  else if p0 = QEMU_PSCI_0_2_FN_MIGRATE_INFO_TYPE then
    (setX0 env (u64ofInt QEMU_PSCI_0_2_RET_TOS_MIGRATION_NOT_REQUIRED), 0)
  else if p0 = QEMU_PSCI_0_2_FN_AFFINITY_INFO ∨ p0 = QEMU_PSCI_0_2_FN64_AFFINITY_INFO then
    if p2 = 0 then
      match w.cpuPowerById p1 with
      | none => (setX0 env (u64ofInt QEMU_PSCI_RET_INVALID_PARAMS), 0)
      | some ps => (setX0 env (u64ofInt (ps : Int)), 0)
    else
      (setX0 env (u64ofInt 0), 0)
  else if p0 = QEMU_PSCI_0_2_FN_SYSTEM_RESET then
    (env, 0)
  else if p0 = QEMU_PSCI_0_2_FN_SYSTEM_OFF then
    (env, 0)
  else if p0 = QEMU_PSCI_0_1_FN_CPU_ON ∨ p0 = QEMU_PSCI_0_2_FN_CPU_ON
       ∨ p0 = QEMU_PSCI_0_2_FN64_CPU_ON then
    (setX0 env (u64ofInt (w.setCpuOnRet p1 p2 p3)), 0)
  else if p0 = QEMU_PSCI_0_1_FN_CPU_OFF ∨ p0 = QEMU_PSCI_0_2_FN_CPU_OFF then
    (env, 0)
  else if p0 = QEMU_PSCI_0_1_FN_CPU_SUSPEND ∨ p0 = QEMU_PSCI_0_2_FN_CPU_SUSPEND
       ∨ p0 = QEMU_PSCI_0_2_FN64_CPU_SUSPEND then
    if p1 &&& 0xfffe0000 ≠ 0 then
      (setX0 env (u64ofInt QEMU_PSCI_RET_INVALID_PARAMS), 0)
    else
      (setX0 env (u64ofInt 0), 0)
  else if p0 = QEMU_PSCI_0_1_FN_MIGRATE ∨ p0 = QEMU_PSCI_0_2_FN_MIGRATE then
    (setX0 env (u64ofInt QEMU_PSCI_RET_NOT_SUPPORTED), 0)
  else
    (env, 1)

/-- Whether `x0` is one of the function identifiers the PSCI handler
recognizes (every non-default case of its switch). -/
def psciRecognized (x0 : Nat) : Bool :=
  x0 = QEMU_PSCI_0_2_FN_PSCI_VERSION ∨ x0 = QEMU_PSCI_0_2_FN_MIGRATE_INFO_TYPE
  ∨ x0 = QEMU_PSCI_0_2_FN_AFFINITY_INFO ∨ x0 = QEMU_PSCI_0_2_FN64_AFFINITY_INFO
  ∨ x0 = QEMU_PSCI_0_2_FN_SYSTEM_RESET ∨ x0 = QEMU_PSCI_0_2_FN_SYSTEM_OFF
  ∨ x0 = QEMU_PSCI_0_1_FN_CPU_ON ∨ x0 = QEMU_PSCI_0_2_FN_CPU_ON
  ∨ x0 = QEMU_PSCI_0_2_FN64_CPU_ON
  ∨ x0 = QEMU_PSCI_0_1_FN_CPU_OFF ∨ x0 = QEMU_PSCI_0_2_FN_CPU_OFF
  ∨ x0 = QEMU_PSCI_0_1_FN_CPU_SUSPEND ∨ x0 = QEMU_PSCI_0_2_FN_CPU_SUSPEND
  ∨ x0 = QEMU_PSCI_0_2_FN64_CPU_SUSPEND
  ∨ x0 = QEMU_PSCI_0_1_FN_MIGRATE ∨ x0 = QEMU_PSCI_0_2_FN_MIGRATE

/-- `arm_current_el` for an AArch64 guest: the M[3:2] field of PSTATE.
Modelled from the spec (helper outside src/). -/
def arm_current_el (env : Env) : Nat := (env.pstate >>> 2) &&& 3

/-- `aarch64_save_sp`: bank the current SP (`xregs[31]`) into `sp_el[el]`.
Modelled from the spec (helper outside src/); the guest runs at EL0/EL1, so
the two banks present in the auto-sync table are modelled. -/
def aarch64_save_sp (env : Env) (el : Nat) : Env :=
  if el = 0 then { env with sregs := { env.sregs with sp_el0 := env.xregs 31 } }
  else { env with sregs := { env.sregs with sp_el1 := env.xregs 31 } }

/-- `aarch64_restore_sp`: load `xregs[31]` from `sp_el[el]`.  Modelled from
the spec (helper outside src/). -/
def aarch64_restore_sp (env : Env) (el : Nat) : Env :=
  { env with xregs :=
      (Function.update env.xregs 31 (if el = 0 then env.sregs.sp_el0 else env.sregs.sp_el1)) }

/-- `hvf_raise_exception`: deliver a synthetic exception to EL1 — record the
syndrome in ESR_EL1, bank SP and SPSR, set ELR_EL1 to the current PC, mask
DAIF and enter EL1h, and redirect the PC to the EL1 vector base (VBAR_EL1).
`aarch64_pstate_mode(1, true)` is the EL1h mode value 5. -/
def hvf_raise_exception (env : Env) (syndrome : Nat) : Env :=
  let old_mode := env.pstate
  let new_mode := 5
  let addr := env.sregs.vbar_el1
  let env1 := { env with sregs := { env.sregs with esr_el1 := syndrome } }
  let env2 := aarch64_save_sp env1 (arm_current_el env1)
  let env3 := { env2 with sregs := { env2.sregs with elr_el1 := env2.pc, spsr_el1 := old_mode } }
  let env4 := { env3 with pstate := PSTATE_DAIF ||| new_mode }
  let env5 := aarch64_restore_sp env4 1
  { env5 with pc := addr }

/-- The action the idle/wait scheduler decides on: return immediately, block
until an external kick with no timeout, or block for the given duration (or
until kicked). -/
inductive WfiAction where
  | ret : WfiAction
  | blockIndef : WfiAction
  | blockFor (sec ns : Nat) : WfiAction
deriving DecidableEq

/-- `hvf_wfi`: given the pending IRQ/FIQ lines, the hardware virtual-timer
control register, its compare value, the current host counter
(`mach_absolute_time()`) and the guest counter frequency, decide how to wait.
Bit 0 of `ctl` is the enable bit, bit 1 the interrupt mask bit. -/
def hvf_wfi (irq fiq : Bool) (ctl cval now freq : Nat) : WfiAction :=
  if irq || fiq then
    .ret
  else if ¬ctl.testBit 0 || ctl.testBit 1 then
    .blockIndef
  else
    let ticks := toInt64 (usub64 cval now)
    if ticks < 0 then
      .ret
    else
      let t := ticks.toNat
      let sec := t / freq
      let ns := (t - freq * sec) * 1000000000 % U64MOD / freq
      if sec = 0 ∧ ns < 2000000 then .ret
      else .blockFor sec ns

/-- Advance the program counter by one instruction width: flush any dirty
state, read the hardware PC, add 4 and write it back (the tail of
`hvf_vcpu_exec` when `advance_pc` is set). -/
def advancePC (s : VState) : VState :=
  let s' := flush_cpu_state s
  { s' with hw := { s'.hw with pc := (s'.hw.pc + 4) % U64MOD } }

/-- The exception-class dispatch of `hvf_vcpu_exec` (the `switch (ec)` after a
`HV_EXIT_REASON_EXCEPTION` exit, together with the trailing conditional PC
advance): given the vCPU state, the external world, guest physical memory,
the exit syndrome and the faulting physical address, produce the resulting
state, world, memory and the function's return status; `none` models the
fatal `assert(isv)` of a data abort without valid access-size information.
The WFI sleep of the `EC_WFX_TRAP` case blocks the thread but modifies none
of the modelled state. -/
def hvf_vcpu_exec_dispatch (s : VState) (w : World) (mem : Nat → Nat)
    (syndrome phys : Nat) : Option (VState × World × (Nat → Nat) × Nat) :=
  let ec := syn_get_ec syndrome
  if ec = EC_DATAABORT then
    if syndrome.testBit 24 then
      let iswrite := syndrome.testBit 6
      let sas := (syndrome >>> 22) &&& 3
      let len := 2 ^ sas
      let srt := (syndrome >>> 16) &&& 0x1f
      if iswrite then
        let pr := hvf_get_reg s srt
        let mem' := writeBytes mem phys pr.2 len
        some (advancePC pr.1, w, mem', 0)
      else
        let v := readBytes mem phys len
        some (advancePC (hvf_set_reg s srt v), w, mem, 0)
    else
      none
  else if ec = EC_SYSTEMREGISTERTRAP then
    let isread := syndrome.testBit 0
    let rt := (syndrome >>> 5) &&& 0x1f
    let reg := syndrome &&& SYSREG_MASK
    if isread then
      let pr := hvf_sysreg_read s w reg
      some (advancePC (hvf_set_reg pr.1 rt pr.2), w, mem, 0)
    else
      let pr := hvf_get_reg s rt
      let qr := hvf_sysreg_write pr.1 w reg pr.2
      some (advancePC qr.1, qr.2, mem, 0)
  else if ec = EC_WFX_TRAP then
    some (advancePC s, w, mem, 0)
  else if ec = EC_AA64_HVC then
    let s1 := cpu_synchronize_state s
    let pr := hvf_handle_psci_call w s1.env
    let s2 := { s1 with env := pr.1 }
    if pr.2 ≠ 0 then
      if pr.1.xregs 0 &&& 0xC1000000 = 0xC1000000 then
        let fn := pr.1.xregs 0 &&& 0xFFFF
        if fn = 1 then
          some ({ s2 with env := { pr.1 with
            xregs := Function.update (Function.update pr.1.xregs 2 0) 3 0 } }, w, mem, 0)
        else
          some (s2, w, mem, 0)
      else
        some ({ s2 with env := hvf_raise_exception pr.1 syn_uncategorized }, w, mem, 0)
    else
      some (s2, w, mem, 0)
  else if ec = EC_AA64_SMC then
    let s1 := cpu_synchronize_state s
    let pr := hvf_handle_psci_call w s1.env
    let s2 := { s1 with env := pr.1 }
    if pr.2 = 0 then
      some (advancePC s2, w, mem, 0)
    else if pr.1.xregs 0 = QEMU_SMCCC_TC_WINDOWS10_BOOT then
      some (advancePC { s2 with env := setX0 pr.1 (u64ofInt (-1)) }, w, mem, 0)
    else
      some ({ s2 with env := hvf_raise_exception pr.1 syn_uncategorized }, w, mem, 0)
  else if ec = EC_SOFTWARESTEP then
    some (cpu_synchronize_state s, w, mem, EXCP_DEBUG)
  else if ec = EC_AA64_BKPT then
    some (cpu_synchronize_state s, w, mem, EXCP_DEBUG)
  else
    some (cpu_synchronize_state s, w, mem, 0)

/-- The break opcode `hvf_insert_breakpoint` patches in (`brk_insn`). -/
def brk_insn : Nat := 0xd4200000

/-- The state the breakpoint helpers manipulate: guest memory at
instruction granularity (the 4-byte word `cpu_memory_rw_debug` transfers at a
given address), the single process-wide `saved_insn` slot, and the vCPU's
debug-enable flag. -/
structure BpState where
  mem : Nat → Nat
  saved_insn : Nat
  enable_debug : Bool

/-- `hvf_insert_breakpoint` (success path of `cpu_memory_rw_debug`): enable
debug, save the 4-byte instruction at `addr` into the process-wide slot, then
overwrite it with the break opcode. -/
def hvf_insert_breakpoint (s : BpState) (addr : Nat) : BpState :=
  { mem := Function.update s.mem addr brk_insn
    saved_insn := s.mem addr
    enable_debug := true }

/-- `hvf_remove_breakpoint` (success path of `cpu_memory_rw_debug`): write the
current contents of the `saved_insn` slot back to `addr`. -/
def hvf_remove_breakpoint (s : BpState) (addr : Nat) : BpState :=
  { s with mem := Function.update s.mem addr s.saved_insn }

/-- Core round-trip law of the register transfer layer: pushing immediately
after pulling writes every hardware register back to its own value. -/
theorem putRegs_getRegs (env : Env) (hw : HW) :
    hvf_put_registers (hvf_get_registers env hw) hw = hw := by
  cases hw with
  | mk xr pc q fc fs cp sr =>
    simp only [hvf_get_registers, hvf_put_registers, HW.mk.injEq, eq_self_iff_true,
      and_true, true_and]
    funext i
    simp [Fin.castSucc, Fin.castAdd, Fin.castLE]

theorem flush_cpu_state_dirty (s : VState) : (flush_cpu_state s).dirty = false := by
  cases hd : s.dirty <;> simp [flush_cpu_state, hd]

theorem flush_of_clean (s : VState) (h : s.dirty = false) : flush_cpu_state s = s := by
  simp [flush_cpu_state, h]

theorem sync_hw (s : VState) : (cpu_synchronize_state s).hw = s.hw := by
  unfold cpu_synchronize_state; split <;> rfl

theorem sync_of_clean (s : VState) (h : s.dirty = false) :
    cpu_synchronize_state s = { s with env := hvf_get_registers s.env s.hw, dirty := true } := by
  simp [cpu_synchronize_state, h]

theorem flush_after_sync (s : VState) (h : s.dirty = false) :
    flush_cpu_state (cpu_synchronize_state s)
      = { s with env := hvf_get_registers s.env s.hw, dirty := false } := by
  simp [cpu_synchronize_state, h, flush_cpu_state, putRegs_getRegs]

theorem set_reg_hw_pc (s : VState) (rt v : Nat) :
    (hvf_set_reg s rt v).hw.pc = (flush_cpu_state s).hw.pc := by
  unfold hvf_set_reg; split <;> rfl

theorem set_reg_dirty (s : VState) (rt v : Nat) : (hvf_set_reg s rt v).dirty = false := by
  unfold hvf_set_reg; split <;> simp [flush_cpu_state_dirty]

theorem advancePC_pc (s : VState) (h : s.dirty = false) :
    (advancePC s).hw.pc = (s.hw.pc + 4) % U64MOD := by
  simp [advancePC, flush_cpu_state, h]

theorem advancePC_xregs (s : VState) (h : s.dirty = false) :
    (advancePC s).hw.xregs = s.hw.xregs := by
  simp [advancePC, flush_cpu_state, h]

/-- C4: a pull of all registers from hardware (`hvf_get_registers`) followed
immediately by a push of all registers back (`hvf_put_registers`), with no
intervening modification, leaves every hardware register value unchanged:
general-purpose registers, PC, SIMD/FP registers, FPCR/FPSR, processor state
and the auto-synced system registers. -/
theorem hvf_get_then_put_registers_roundtrip (env : Env) (hw : HW) :
    hvf_put_registers (hvf_get_registers env hw) hw = hw :=
  putRegs_getRegs env hw

/-- C5: for general-purpose register indices 0-30, `hvf_set_reg` and
`hvf_get_reg` write and read that hardware register after lazily flushing any
dirty emulated state (a value written is read back, other registers keep the
flushed state's values, and a read returns the flushed state's register);
for index 31 the read accessor always returns zero and the write accessor
performs no hardware register write, so on a clean state a write to index 31
is a complete no-op. -/
theorem hvf_single_reg_accessors (s : VState) (rt v : Nat) (hv : v < U64MOD) :
    (∀ h : rt < 31,
        (hvf_set_reg s rt v).hw.xregs ⟨rt, h⟩ = v
      ∧ (hvf_get_reg (hvf_set_reg s rt v) rt).2 = v
      ∧ (hvf_get_reg s rt).2 = (flush_cpu_state s).hw.xregs ⟨rt, h⟩
      ∧ ∀ j : Fin 31, j.val ≠ rt →
          (hvf_set_reg s rt v).hw.xregs j = (flush_cpu_state s).hw.xregs j)
  ∧ (rt = 31 →
        (hvf_get_reg s rt).2 = 0
      ∧ hvf_set_reg s rt v = flush_cpu_state s
      ∧ (s.dirty = false → hvf_set_reg s rt v = s)) := by
  constructor
  · intro h
    refine ⟨?_, ?_, ?_, ?_⟩
    · simp [hvf_set_reg, h, Nat.mod_eq_of_lt hv]
    · have hd : (hvf_set_reg s rt v).dirty = false := set_reg_dirty s rt v
      simp only [hvf_get_reg]
      rw [flush_of_clean _ hd]
      simp [hvf_set_reg, h, Nat.mod_eq_of_lt hv]
    · simp [hvf_get_reg, h]
    · intro j hj
      have hne : j ≠ (⟨rt, h⟩ : Fin 31) := by
        intro he
        exact hj (by rw [he])
      simp [hvf_set_reg, h, Function.update_noteq hne]
  · intro h
    subst h
    refine ⟨?_, ?_, ?_⟩
    · simp [hvf_get_reg]
    · simp [hvf_set_reg]
    · intro hd; simp [hvf_set_reg, flush_of_clean s hd]

/-- C10: `hvf_insert_breakpoint` saves the 4-byte guest instruction at the
target address into the single process-wide `saved_insn` slot before
overwriting it with the break opcode `0xd4200000`; `hvf_remove_breakpoint`
writes that slot's current contents back to the given address; insert
followed by remove at the same address with no intervening insert restores
guest memory exactly; and a second insert at any address overwrites the
single slot, so after an intervening insert at `b ≠ a` the removal at `a`
deposits the instruction saved from `b` instead. -/
theorem breakpoint_insert_remove (s : BpState) (a b : Nat) :
    (hvf_insert_breakpoint s a).mem a = brk_insn
  ∧ (hvf_insert_breakpoint s a).saved_insn = s.mem a
  ∧ (hvf_insert_breakpoint s a).enable_debug = true
  ∧ (∀ x, x ≠ a → (hvf_insert_breakpoint s a).mem x = s.mem x)
  ∧ hvf_remove_breakpoint s a = { s with mem := Function.update s.mem a s.saved_insn }
  ∧ (hvf_remove_breakpoint (hvf_insert_breakpoint s a) a).mem = s.mem
  ∧ (hvf_insert_breakpoint (hvf_insert_breakpoint s a) b).saved_insn
      = (hvf_insert_breakpoint s a).mem b
  ∧ (b ≠ a →
      (hvf_remove_breakpoint (hvf_insert_breakpoint (hvf_insert_breakpoint s a) b) a).mem a
        = s.mem b) := by
  refine ⟨by simp [hvf_insert_breakpoint], rfl, rfl, ?_, rfl, ?_, rfl, ?_⟩
  · intro x hx
    simp [hvf_insert_breakpoint, Function.update_noteq hx]
  · simp [hvf_insert_breakpoint, hvf_remove_breakpoint, Function.update_idem]
  · intro hba
    simp [hvf_insert_breakpoint, hvf_remove_breakpoint, Function.update_noteq hba]

/-- C3: branch behavior of the idle/wait scheduler `hvf_wfi`: return
immediately when an IRQ or FIQ is already pending; block indefinitely (no
timeout) when the virtual timer's enable bit is clear or its mask bit is set;
return immediately when the compare value is already past the current counter
(negative remaining ticks); return immediately when the remaining duration is
below the ~2 ms threshold (0 seconds and fewer than 2000000 nanoseconds);
otherwise block for the computed seconds + nanoseconds duration (or until
kicked). -/
theorem hvf_wfi_branch_behavior (irq fiq : Bool) (ctl cval now freq : Nat) :
    ((irq = true ∨ fiq = true) → hvf_wfi irq fiq ctl cval now freq = .ret)
  ∧ (irq = false → fiq = false → (ctl.testBit 0 = false ∨ ctl.testBit 1 = true) →
      hvf_wfi irq fiq ctl cval now freq = .blockIndef)
  ∧ (irq = false → fiq = false → ctl.testBit 0 = true → ctl.testBit 1 = false →
      toInt64 (usub64 cval now) < 0 →
      hvf_wfi irq fiq ctl cval now freq = .ret)
  ∧ (irq = false → fiq = false → ctl.testBit 0 = true → ctl.testBit 1 = false →
      0 ≤ toInt64 (usub64 cval now) →
      (toInt64 (usub64 cval now)).toNat / freq = 0 →
      ((toInt64 (usub64 cval now)).toNat
          - freq * ((toInt64 (usub64 cval now)).toNat / freq)) * 1000000000 % U64MOD / freq
        < 2000000 →
      hvf_wfi irq fiq ctl cval now freq = .ret)
  ∧ (irq = false → fiq = false → ctl.testBit 0 = true → ctl.testBit 1 = false →
      0 ≤ toInt64 (usub64 cval now) →
      ¬((toInt64 (usub64 cval now)).toNat / freq = 0
        ∧ ((toInt64 (usub64 cval now)).toNat
            - freq * ((toInt64 (usub64 cval now)).toNat / freq)) * 1000000000 % U64MOD / freq
          < 2000000) →
      hvf_wfi irq fiq ctl cval now freq
        = .blockFor ((toInt64 (usub64 cval now)).toNat / freq)
            (((toInt64 (usub64 cval now)).toNat
                - freq * ((toInt64 (usub64 cval now)).toNat / freq)) * 1000000000 % U64MOD
              / freq)) := by
  refine ⟨?_, ?_, ?_, ?_, ?_⟩
  · rintro (h | h) <;> simp [hvf_wfi, h]
  · rintro hi hf (h | h) <;> simp [hvf_wfi, hi, hf, h]
  · intro hi hf h0 h1 hneg
    rw [hvf_wfi]
    simp only [hi, hf, Bool.or_self, Bool.false_eq_true, if_false, h0, h1,
      Bool.not_true, Bool.false_or, if_neg (by simp : ¬False = True)]
    simp [hneg, Int.not_le.mpr hneg]
  · intro hi hf h0 h1 hnonneg hsec hns
    rw [hsec, Nat.mul_zero, Nat.sub_zero] at hns
    rw [hvf_wfi]
    simp [hi, hf, h0, h1, Int.not_lt.mpr hnonneg, hsec, hns]
  · intro hi hf h0 h1 hnonneg hnot
    rw [hvf_wfi]
    simp [hi, hf, h0, h1, Int.not_lt.mpr hnonneg, hnot]

/-- The priority-bits field (bits 8-10) of any value whose PRIBITS field has
been masked out and replaced with `4 << 8` is exactly 4, whatever the
underlying value. -/
theorem pribits_field_eq_four (v : Nat) :
    (((v &&& ICC_CTLR_EL1_PRIBITS_NOTMASK) ||| (4 <<< ICC_CTLR_EL1_PRIBITS_SHIFT)) >>> 8)
        &&& 7 = 4 := by
  apply Nat.eq_of_testBit_eq
  intro i
  rcases Nat.lt_or_ge i 3 with hi | hi
  · have k8 : Nat.testBit 18446744073709549823 8 = false := by decide
    have k9 : Nat.testBit 18446744073709549823 9 = false := by decide
    have k10 : Nat.testBit 18446744073709549823 10 = false := by decide
    have p8 : Nat.testBit 1024 8 = false := by decide
    have p9 : Nat.testBit 1024 9 = false := by decide
    have p10 : Nat.testBit 1024 10 = true := by decide
    interval_cases i <;>
      simp [Nat.testBit_and, Nat.testBit_or, Nat.testBit_shiftRight,
        ICC_CTLR_EL1_PRIBITS_NOTMASK, ICC_CTLR_EL1_PRIBITS_SHIFT,
        k8, k9, k10, p8, p9, p10] <;>
      decide
  · have h8 : (8 : Nat) ≤ 2 ^ i := by
      calc (8 : Nat) = 2 ^ 3 := by norm_num
      _ ≤ 2 ^ i := Nat.pow_le_pow_right (by norm_num) hi
    have h7 : (7 : Nat).testBit i = false := Nat.testBit_lt_two_pow (by omega)
    have h4 : (4 : Nat).testBit i = false := Nat.testBit_lt_two_pow (by omega)
    simp [Nat.testBit_and, h7, h4]

/-- C6: a trapped read of `ICC_CTLR_EL1` returns the underlying
coprocessor-register emulation's value with the priority-bits field masked
out and replaced by exactly 4, and the priority-bits field of the returned
value is 4 regardless of what the underlying emulation reports. -/
theorem icc_ctlr_read_forces_four_pribits (s : VState) (w : World) :
    (hvf_sysreg_read s w SYSREG_ICC_CTLR_EL1).2
        = ((hvf_sysreg_read_cp w SYSREG_ICC_CTLR_EL1 &&& ICC_CTLR_EL1_PRIBITS_NOTMASK)
            ||| (4 <<< ICC_CTLR_EL1_PRIBITS_SHIFT))
  ∧ (((hvf_sysreg_read s w SYSREG_ICC_CTLR_EL1).2 >>> 8) &&& 7) = 4
  ∧ (hvf_sysreg_read s w SYSREG_ICC_CTLR_EL1).1 = s := by
  have hr : hvf_sysreg_read s w SYSREG_ICC_CTLR_EL1
      = (s, (hvf_sysreg_read_cp w SYSREG_ICC_CTLR_EL1 &&& ICC_CTLR_EL1_PRIBITS_NOTMASK)
              ||| (4 <<< ICC_CTLR_EL1_PRIBITS_SHIFT)) := by
    rw [hvf_sysreg_read]
    rw [if_neg (by decide), if_neg (by decide), if_neg (by decide), if_pos rfl]
  refine ⟨by rw [hr], ?_, by rw [hr]⟩
  rw [hr]
  exact pribits_field_eq_four _

/-- C8: on a breakpoint-instruction exception-class exit the dispatcher
synchronizes the emulated state, returns the debug-stop status `EXCP_DEBUG`,
and leaves the hardware register file — the program counter in particular —
unchanged (the PC-advance flag is never set on this path). -/
theorem bkpt_exit_returns_debug (s : VState) (w : World) (mem : Nat → Nat)
    (syndrome phys : Nat) (hec : syn_get_ec syndrome = EC_AA64_BKPT) :
    hvf_vcpu_exec_dispatch s w mem syndrome phys
        = some (cpu_synchronize_state s, w, mem, EXCP_DEBUG)
  ∧ (cpu_synchronize_state s).hw = s.hw
  ∧ (cpu_synchronize_state s).hw.pc = s.hw.pc := by
  refine ⟨?_, sync_hw s, by rw [sync_hw]⟩
  rw [hvf_vcpu_exec_dispatch, hec]
  rw [if_neg (by decide), if_neg (by decide), if_neg (by decide), if_neg (by decide),
    if_neg (by decide), if_neg (by decide), if_pos rfl]

theorem sysreg_read_cases (s : VState) (w : World) (reg : Nat) :
    (hvf_sysreg_read s w reg).1 = s ∨ (hvf_sysreg_read s w reg).1 = cpu_synchronize_state s := by
  unfold hvf_sysreg_read
  split_ifs <;> simp

theorem sysreg_write_cases (s : VState) (w : World) (reg v : Nat) :
    (hvf_sysreg_write s w reg v).1 = s
  ∨ (hvf_sysreg_write s w reg v).1 = cpu_synchronize_state s := by
  unfold hvf_sysreg_write
  split_ifs <;> simp

theorem advancePC_of_clean_or_synced (s x : VState) (hd : s.dirty = false)
    (hx : x = s ∨ x = cpu_synchronize_state s) :
    (advancePC x).hw.pc = (s.hw.pc + 4) % U64MOD := by
  rcases hx with hx | hx
  · rw [hx, advancePC_pc s hd]
  · rw [hx]
    unfold advancePC
    rw [flush_after_sync s hd]
  -- remaining: pc of the flushed-after-sync state

theorem set_reg_pc_of_clean_or_synced (s x : VState) (hd : s.dirty = false)
    (hx : x = s ∨ x = cpu_synchronize_state s) (rt v : Nat) :
    (advancePC (hvf_set_reg x rt v)).hw.pc = (s.hw.pc + 4) % U64MOD := by
  have hpc : (hvf_set_reg x rt v).hw.pc = s.hw.pc := by
    rw [set_reg_hw_pc]
    rcases hx with hx | hx
    · rw [hx, flush_of_clean s hd]
    · rw [hx, flush_after_sync s hd]
  have hdd : (hvf_set_reg x rt v).dirty = false := set_reg_dirty x rt v
  rw [advancePC_pc _ hdd, hpc]

/-- C2: on every system-register trap exit — read or write, handled or
unhandled register — the dispatcher leaves the hardware program counter at
exactly its pre-trap value plus one instruction width (4 bytes, modulo 2^64),
so the trapping instruction is never re-executed. -/
theorem sysreg_trap_advances_pc (s : VState) (w : World) (mem : Nat → Nat)
    (syndrome phys : Nat) (hd : s.dirty = false)
    (hec : syn_get_ec syndrome = EC_SYSTEMREGISTERTRAP) :
    ∃ s' w', hvf_vcpu_exec_dispatch s w mem syndrome phys = some (s', w', mem, 0)
      ∧ s'.hw.pc = (s.hw.pc + 4) % U64MOD := by
  rw [hvf_vcpu_exec_dispatch, hec]
  rw [if_neg (by decide), if_pos rfl]
  by_cases hr : syndrome.testBit 0
  · simp only [hr, if_true, if_pos]
    refine ⟨_, _, rfl, ?_⟩
    exact set_reg_pc_of_clean_or_synced s _ hd
      (sysreg_read_cases s w (syndrome &&& SYSREG_MASK)) _ _
  · simp only [hr, Bool.false_eq_true, if_false]
    refine ⟨_, _, rfl, ?_⟩
    have hg : (hvf_get_reg s ((syndrome >>> 5) &&& 0x1f)).1 = s := by
      simp [hvf_get_reg, flush_of_clean s hd]
    rw [hg]
    exact advancePC_of_clean_or_synced s _ hd
      (sysreg_write_cases s w (syndrome &&& SYSREG_MASK) _)

theorem readBytes_lt (mem : Nat → Nat) (a : Nat) : ∀ n, readBytes mem a n < 256 ^ n := by
  intro n
  induction n generalizing a with
  | zero => simp [readBytes]
  | succ n ih =>
    have hb : mem a % 256 < 256 := Nat.mod_lt _ (by norm_num)
    have hr := ih (a + 1)
    have : readBytes mem a (n + 1) = mem a % 256 + 256 * readBytes mem (a + 1) n := rfl
    rw [this, pow_succ]
    calc mem a % 256 + 256 * readBytes mem (a + 1) n
        ≤ 255 + 256 * readBytes mem (a + 1) n := by omega
      _ < 256 * 256 ^ n := by omega
      _ = 256 ^ n * 256 := by ring

/-- C1: on a data-abort exit, a missing valid-access-size bit (ISV, bit 24 of
the syndrome) is fatal; otherwise the access length is `1 << sas` for the
2-bit size field `sas`, i.e. 1, 2, 4 or 8 bytes.  If the syndrome's write bit
(bit 6) is set, that many bytes of the syndrome-indicated general-purpose
register (bits 16-20; index 31 reads as zero) are written to guest physical
memory at the faulting physical address and the registers are unchanged;
otherwise that many bytes are read from that address into the indicated
register (an indicated index 31 changes no register); in both cases the
program counter is then advanced by one instruction width. -/
theorem data_abort_emulation (s : VState) (w : World) (mem : Nat → Nat)
    (syndrome phys : Nat) (hd : s.dirty = false)
    (hec : syn_get_ec syndrome = EC_DATAABORT) :
    (syndrome.testBit 24 = false → hvf_vcpu_exec_dispatch s w mem syndrome phys = none)
  ∧ (2 ^ ((syndrome >>> 22) &&& 3) = 1 ∨ 2 ^ ((syndrome >>> 22) &&& 3) = 2
      ∨ 2 ^ ((syndrome >>> 22) &&& 3) = 4 ∨ 2 ^ ((syndrome >>> 22) &&& 3) = 8)
  ∧ (syndrome.testBit 24 = true → syndrome.testBit 6 = true →
      ∃ s', hvf_vcpu_exec_dispatch s w mem syndrome phys
          = some (s', w,
              writeBytes mem phys
                (if h : (syndrome >>> 16) &&& 0x1f < 31
                 then s.hw.xregs ⟨(syndrome >>> 16) &&& 0x1f, h⟩ else 0)
                (2 ^ ((syndrome >>> 22) &&& 3)), 0)
        ∧ s'.hw.pc = (s.hw.pc + 4) % U64MOD
        ∧ s'.hw.xregs = s.hw.xregs)
  ∧ (syndrome.testBit 24 = true → syndrome.testBit 6 = false →
      ∃ s', hvf_vcpu_exec_dispatch s w mem syndrome phys = some (s', w, mem, 0)
        ∧ s'.hw.pc = (s.hw.pc + 4) % U64MOD
        ∧ (∀ h : (syndrome >>> 16) &&& 0x1f < 31,
            s'.hw.xregs ⟨(syndrome >>> 16) &&& 0x1f, h⟩
              = readBytes mem phys (2 ^ ((syndrome >>> 22) &&& 3)))
        ∧ ((syndrome >>> 16) &&& 0x1f = 31 → s'.hw.xregs = s.hw.xregs)) := by
  have hsas : (syndrome >>> 22) &&& 3 ≤ 3 := Nat.and_le_right
  refine ⟨?_, ?_, ?_, ?_⟩
  · intro hisv
    rw [hvf_vcpu_exec_dispatch, hec, if_pos rfl, if_neg (by simp [hisv])]
  · interval_cases h : (syndrome >>> 22) &&& 3 <;> simp
  · intro hisv hw6
    rw [hvf_vcpu_exec_dispatch, hec, if_pos rfl, if_pos (by simp [hisv]), if_pos (by simp [hw6])]
    have hgr : hvf_get_reg s ((syndrome >>> 16) &&& 0x1f)
        = (s, if h : (syndrome >>> 16) &&& 0x1f < 31
              then s.hw.xregs ⟨(syndrome >>> 16) &&& 0x1f, h⟩ else 0) := by
      simp [hvf_get_reg, flush_of_clean s hd]
    simp only [hgr]
    exact ⟨advancePC s, rfl, advancePC_pc s hd, advancePC_xregs s hd⟩
  · intro hisv hw6
    rw [hvf_vcpu_exec_dispatch, hec, if_pos rfl, if_pos (by simp [hisv]),
      if_neg (by simp [hw6])]
    refine ⟨_, rfl, ?_, ?_, ?_⟩
    · exact set_reg_pc_of_clean_or_synced s s hd (Or.inl rfl) _ _
    · intro h
      have hdd : (hvf_set_reg s ((syndrome >>> 16) &&& 0x1f)
          (readBytes mem phys (2 ^ ((syndrome >>> 22) &&& 3)))).dirty = false :=
        set_reg_dirty _ _ _
      rw [advancePC_xregs _ hdd]
      have hv : readBytes mem phys (2 ^ ((syndrome >>> 22) &&& 3)) < U64MOD := by
        have h1 := readBytes_lt mem phys (2 ^ ((syndrome >>> 22) &&& 3))
        have h2 : (256 : Nat) ^ (2 ^ ((syndrome >>> 22) &&& 3)) ≤ 256 ^ 8 := by
          apply Nat.pow_le_pow_right (by norm_num)
          interval_cases hc : (syndrome >>> 22) &&& 3 <;> norm_num
        have h3 : (256 : Nat) ^ 8 = U64MOD := by norm_num [U64MOD]
        omega
      simp [hvf_set_reg, flush_of_clean s hd, h, Nat.mod_eq_of_lt hv]
    · intro h31
      have hns : ¬((syndrome >>> 16) &&& 0x1f < 31) := by omega
      have hdd : (hvf_set_reg s ((syndrome >>> 16) &&& 0x1f)
          (readBytes mem phys (2 ^ ((syndrome >>> 22) &&& 3)))).dirty = false :=
        set_reg_dirty _ _ _
      rw [advancePC_xregs _ hdd]
      simp [hvf_set_reg, hns, flush_of_clean s hd]

set_option maxHeartbeats 1000000 in
/-- C9: the PSCI handler may modify only the calling CPU's result register
`xregs[0]`: every other general-purpose register (including SP), the PC, the
SIMD/FP registers, FPCR/FPSR, PSTATE and the system registers are left
unchanged; and when the function identifier is unrecognized (the handler
returns nonzero, signalling "not a firmware call") no guest register at all
is modified. -/
theorem psci_call_modifies_only_x0 (w : World) (env : Env) :
    (∀ i : Fin 32, i ≠ 0 → (hvf_handle_psci_call w env).1.xregs i = env.xregs i)
  ∧ (hvf_handle_psci_call w env).1.pc = env.pc
  ∧ (hvf_handle_psci_call w env).1.zregs = env.zregs
  ∧ (hvf_handle_psci_call w env).1.fpcr = env.fpcr
  ∧ (hvf_handle_psci_call w env).1.fpsr = env.fpsr
  ∧ (hvf_handle_psci_call w env).1.pstate = env.pstate
  ∧ (hvf_handle_psci_call w env).1.sregs = env.sregs
  ∧ ((hvf_handle_psci_call w env).2 ≠ 0 → (hvf_handle_psci_call w env).1 = env) := by
  have hx : ∀ v (i : Fin 32), i ≠ 0 → (setX0 env v).xregs i = env.xregs i := by
    intro v i hi
    simp [setX0, Function.update_noteq hi]
  have key : (hvf_handle_psci_call w env).1 = env
      ∨ ∃ v, (hvf_handle_psci_call w env).1 = setX0 env v := by
    unfold hvf_handle_psci_call
    dsimp only
    split_ifs <;>
      first
      | exact Or.inr ⟨_, rfl⟩
      | exact Or.inl rfl
      | (cases w.cpuPowerById (env.xregs 1) <;> exact Or.inr ⟨_, rfl⟩)
  have key2 : (hvf_handle_psci_call w env).2 = 0 ∨ hvf_handle_psci_call w env = (env, 1) := by
    unfold hvf_handle_psci_call
    dsimp only
    split_ifs <;>
      first
      | exact Or.inl rfl
      | exact Or.inr rfl
      | (cases w.cpuPowerById (env.xregs 1) <;> exact Or.inl rfl)
  have hret : (hvf_handle_psci_call w env).2 ≠ 0 → (hvf_handle_psci_call w env).1 = env := by
    intro hnz
    rcases key2 with h | h
    · exact absurd h hnz
    · rw [h]
  rcases key with hk | ⟨v, hk⟩
  · exact ⟨fun i _ => by rw [hk], by rw [hk], by rw [hk], by rw [hk], by rw [hk],
      by rw [hk], by rw [hk], hret⟩
  · exact ⟨fun i hi => by rw [hk]; exact hx v i hi, by rw [hk]; rfl, by rw [hk]; rfl,
      by rw [hk]; rfl, by rw [hk]; rfl, by rw [hk]; rfl, by rw [hk]; rfl, hret⟩

set_option maxHeartbeats 1000000 in
theorem psci_call_unrecognized (w : World) (env : Env)
    (h : psciRecognized (env.xregs 0) = false) :
    hvf_handle_psci_call w env = (env, 1) := by
  unfold psciRecognized at h
  rw [decide_eq_false_iff_not] at h
  push_neg at h
  obtain ⟨h1, h2, h3, h4, h5, h6, h7, h8, h9, h10, h11, h12, h13, h14, h15, h16⟩ := h
  unfold hvf_handle_psci_call
  dsimp only
  rw [if_neg h1, if_neg h2, if_neg (by push_neg; exact ⟨h3, h4⟩), if_neg h5, if_neg h6,
    if_neg (by push_neg; exact ⟨h7, h8, h9⟩), if_neg (by push_neg; exact ⟨h10, h11⟩),
    if_neg (by push_neg; exact ⟨h12, h13, h14⟩), if_neg (by push_neg; exact ⟨h15, h16⟩)]

theorem raise_exception_fields (env : Env) (synd : Nat) :
    (hvf_raise_exception env synd).sregs.esr_el1 = synd
  ∧ (hvf_raise_exception env synd).sregs.elr_el1 = env.pc
  ∧ (hvf_raise_exception env synd).sregs.spsr_el1 = env.pstate
  ∧ (hvf_raise_exception env synd).pc = env.sregs.vbar_el1
  ∧ (hvf_raise_exception env synd).pstate = PSTATE_DAIF ||| 5 := by
  by_cases h : arm_current_el { env with sregs := { env.sregs with esr_el1 := synd } } = 0 <;>
    simp [hvf_raise_exception, aarch64_save_sp, aarch64_restore_sp, h]

/-- C7: a hypervisor-call exit whose function identifier in GPR0 is neither a
recognized PSCI call nor matches the vendor CPU-service-call signature
(`x0 & 0xC1000000 == 0xC1000000`) delivers a synthetic undefined-instruction
exception to the guest: ESR_EL1 is set to the uncategorized syndrome, ELR_EL1
to the pre-trap PC, the DAIF interrupt-mask bits of PSTATE are set, and the
PC is redirected to the EL1 vector base; the dispatcher does not additionally
advance the PC (the hardware register file is untouched). -/
theorem unknown_hvc_raises_udef (s : VState) (w : World) (mem : Nat → Nat)
    (syndrome phys : Nat) (hd : s.dirty = false)
    (hec : syn_get_ec syndrome = EC_AA64_HVC)
    (hpsci : psciRecognized (s.hw.xregs 0) = false)
    (hsig : s.hw.xregs 0 &&& 0xC1000000 ≠ 0xC1000000) :
    ∃ s', hvf_vcpu_exec_dispatch s w mem syndrome phys = some (s', w, mem, 0)
      ∧ s'.env = hvf_raise_exception (hvf_get_registers s.env s.hw) syn_uncategorized
      ∧ s'.env.sregs.esr_el1 = syn_uncategorized
      ∧ s'.env.sregs.elr_el1 = s.hw.pc
      ∧ s'.env.pc = s.hw.sregs.vbar_el1
      ∧ s'.env.pstate &&& PSTATE_DAIF = PSTATE_DAIF
      ∧ s'.hw = s.hw := by
  have hx0 : (hvf_get_registers s.env s.hw).xregs 0 = s.hw.xregs 0 := rfl
  have hsync : cpu_synchronize_state s
      = { s with env := hvf_get_registers s.env s.hw, dirty := true } := sync_of_clean s hd
  have hcall : hvf_handle_psci_call w (hvf_get_registers s.env s.hw)
      = (hvf_get_registers s.env s.hw, 1) :=
    psci_call_unrecognized w _ (by rw [hx0]; exact hpsci)
  rw [hvf_vcpu_exec_dispatch, hec]
  rw [if_neg (by decide), if_neg (by decide), if_neg (by decide), if_pos rfl]
  simp only [hsync, hcall]
  rw [if_pos (by norm_num), if_neg (by rw [hx0]; exact hsig)]
  refine ⟨_, rfl, rfl, ?_, ?_, ?_, ?_, rfl⟩
  · exact (raise_exception_fields _ _).1
  · exact (raise_exception_fields (hvf_get_registers s.env s.hw) syn_uncategorized).2.1
  · exact (raise_exception_fields (hvf_get_registers s.env s.hw) syn_uncategorized).2.2.2.1
  · rw [(raise_exception_fields (hvf_get_registers s.env s.hw) syn_uncategorized).2.2.2.2]
    decide

/-- A concrete auto-synced system-register file used to instantiate the
theorems on concrete inputs. -/
def sregs0 : SysRegs := ⟨1, 2, 3, 4, 5, 6, 7, 8, fun _ => 0⟩

/-- A concrete hardware register file: `Xn = n`, `PC = 0x1000`. -/
def hw0 : HW := ⟨fun i => i.val, 0x1000, fun _ => 0, 0, 0, 0, sregs0⟩

/-- A concrete emulated CPU state: `xregs[n] = n`, `PC = 0x2000`. -/
def env0 : Env := ⟨fun i => i.val, 0x2000, fun _ => 0, 0, 0, 0, sregs0⟩

/-- A concrete external world. -/
def w0 : World := ⟨fun _ => 0, 0, 1, 0, 1, false, false, fun _ => none, fun _ _ _ => 0⟩

/-- A concrete clean vCPU state. -/
def s0 : VState := ⟨hw0, env0, false, false, false⟩

/-- Concrete guest physical memory (all zero bytes). -/
def mem0 : Nat → Nat := fun _ => 0

/-- A concrete breakpoint-helper state: the word at address `a` is `a`. -/
def bp0 : BpState := ⟨fun a => a, 0, false⟩

/-- A concrete data-abort syndrome: EC `0x24`, ISV set, write bit set,
`sas = 2` (4-byte access), `srt = 3`. -/
def daWriteSynd : Nat :=
  (0x24 <<< 26) ||| (1 <<< 24) ||| (2 <<< 22) ||| (3 <<< 16) ||| (1 <<< 6)

/-- A concrete system-register-trap syndrome: EC `0x18`, read, `rt = 0`. -/
def srReadSynd : Nat := (0x18 <<< 26) ||| 1

/-- A concrete HVC syndrome: EC `0x16`. -/
def hvcSynd : Nat := 0x16 <<< 26

/-- A concrete breakpoint syndrome: EC `0x3c`. -/
def bkptSynd : Nat := 0x3c <<< 26

theorem data_abort_emulation_witness :
    ∃ s', hvf_vcpu_exec_dispatch s0 w0 mem0 daWriteSynd 4096
        = some (s', w0,
            writeBytes mem0 4096
              (if h : (daWriteSynd >>> 16) &&& 0x1f < 31
               then s0.hw.xregs ⟨(daWriteSynd >>> 16) &&& 0x1f, h⟩ else 0)
              (2 ^ ((daWriteSynd >>> 22) &&& 3)), 0)
      ∧ s'.hw.pc = (s0.hw.pc + 4) % U64MOD
      ∧ s'.hw.xregs = s0.hw.xregs :=
  (data_abort_emulation s0 w0 mem0 daWriteSynd 4096 rfl (by decide)).2.2.1
    (by decide) (by decide)

theorem sysreg_trap_advances_pc_witness :
    ∃ s' w', hvf_vcpu_exec_dispatch s0 w0 mem0 srReadSynd 0 = some (s', w', mem0, 0)
      ∧ s'.hw.pc = (s0.hw.pc + 4) % U64MOD :=
  sysreg_trap_advances_pc s0 w0 mem0 srReadSynd 0 rfl (by decide)

theorem hvf_wfi_branch_behavior_witness :
    hvf_wfi true false 0 0 0 1 = .ret :=
  (hvf_wfi_branch_behavior true false 0 0 0 1).1 (Or.inl rfl)

theorem hvf_single_reg_accessors_witness :
    (hvf_set_reg s0 3 42).hw.xregs ⟨3, by norm_num⟩ = 42
  ∧ (hvf_get_reg (hvf_set_reg s0 3 42) 3).2 = 42
  ∧ (hvf_get_reg s0 3).2 = (flush_cpu_state s0).hw.xregs ⟨3, by norm_num⟩
  ∧ ∀ j : Fin 31, j.val ≠ 3 →
      (hvf_set_reg s0 3 42).hw.xregs j = (flush_cpu_state s0).hw.xregs j :=
  (hvf_single_reg_accessors s0 3 42 (by norm_num [U64MOD])).1 (by norm_num)

theorem unknown_hvc_raises_udef_witness :
    ∃ s', hvf_vcpu_exec_dispatch s0 w0 mem0 hvcSynd 0 = some (s', w0, mem0, 0)
      ∧ s'.env = hvf_raise_exception (hvf_get_registers s0.env s0.hw) syn_uncategorized
      ∧ s'.env.sregs.esr_el1 = syn_uncategorized
      ∧ s'.env.sregs.elr_el1 = s0.hw.pc
      ∧ s'.env.pc = s0.hw.sregs.vbar_el1
      ∧ s'.env.pstate &&& PSTATE_DAIF = PSTATE_DAIF
      ∧ s'.hw = s0.hw :=
  unknown_hvc_raises_udef s0 w0 mem0 hvcSynd 0 rfl (by decide) (by decide) (by decide)

theorem bkpt_exit_returns_debug_witness :
    hvf_vcpu_exec_dispatch s0 w0 mem0 bkptSynd 0
        = some (cpu_synchronize_state s0, w0, mem0, EXCP_DEBUG)
  ∧ (cpu_synchronize_state s0).hw = s0.hw
  ∧ (cpu_synchronize_state s0).hw.pc = s0.hw.pc :=
  bkpt_exit_returns_debug s0 w0 mem0 bkptSynd 0 (by decide)

theorem psci_call_modifies_only_x0_witness :
    (hvf_handle_psci_call w0 env0).2 ≠ 0 ∧ (hvf_handle_psci_call w0 env0).1 = env0 :=
  ⟨by decide, (psci_call_modifies_only_x0 w0 env0).2.2.2.2.2.2.2 (by decide)⟩

theorem breakpoint_insert_remove_witness :
    (2 : Nat) ≠ 1
  ∧ (hvf_remove_breakpoint (hvf_insert_breakpoint (hvf_insert_breakpoint bp0 1) 2) 1).mem 1
      = bp0.mem 2 :=
  ⟨by decide, (breakpoint_insert_remove bp0 1 2).2.2.2.2.2.2.2 (by decide)⟩
